import Mathlib

/-!
Shallow embedding of the Freestyle parameter-editor stroke-stylization code
(`modules/parameter_editor.py` and `modules/freestyle/utils.py`).

Python floats are modelled by elements of a linear ordered field (instantiated
at `ℝ` in the theorems); Python exceptions (`ValueError`, `RuntimeError`,
`StopIteration`, `UnboundLocalError`, `ZeroDivisionError`) are modelled by
`Except String`.  String-keyed dispatch (`blend`, `position`, `pivot`) keeps
the `String` keys of the source.
-/

namespace Freestyle

/-- `freestyle/utils.py`, `bound(lower, x, higher)`:
`return (lower if x <= lower else higher if x >= higher else x)`. -/
def bound {α : Type*} [LinearOrderedField α] (lower x higher : α) : α :=
  if x ≤ lower then lower else if higher ≤ x then higher else x

/-- `parameter_editor.py`, `ScalarBlendModifier.blend(self, v1, v2)` with
`fac = self.__influence`, `facm = 1.0 - fac`; an unknown blend string raises
`ValueError`, modelled as `.error`.  The `DIVIDE` branch is the conditional
expression `facm * v1 + fac * v1 / v2 if v2 != 0.0 else v1`. -/
def blendScalar {α : Type*} [LinearOrderedField α]
    (blend : String) (fac v1 v2 : α) : Except String α :=
  let facm : α := 1 - fac
  if blend = "MIX" then .ok (facm * v1 + fac * v2)
  else if blend = "ADD" then .ok (v1 + fac * v2)
  else if blend = "MULTIPLY" then .ok (v1 * (facm + fac * v2))
  else if blend = "SUBTRACT" then .ok (v1 - fac * v2)
  else if blend = "DIVIDE" then
    .ok (if v2 ≠ 0 then facm * v1 + fac * v1 / v2 else v1)
  else if blend = "DIFFERENCE" then .ok (facm * v1 + fac * |v1 - v2|)
  else if blend = "MININUM" then .ok (min (fac * v2) v1)
  else if blend = "MAXIMUM" then .ok (max (fac * v2) v1)
  else .error ("unknown curve blend type: " ++ blend)

/-- `parameter_editor.py`, `ScalarBlendModifier.__init__(self, blend, influence)`:
it only stores the two fields and performs no validation, so construction
always succeeds. -/
def scalarBlendModifierInit {α : Type*} [LinearOrderedField α]
    (blend : String) (influence : α) : Except String (String × α) :=
  .ok (blend, influence)

/-- `parameter_editor.py`, the position dispatch of
`ThicknessBlenderMixIn.blend_thickness` (the part after `v = self.blend(...)`,
with `self.__position` and `self.__ratio` as arguments); an unknown position
string raises `ValueError`, modelled as `.error`. -/
def thicknessSplit {α : Type*} [LinearOrderedField α]
    (position : String) (ratio v : α) : Except String (α × α) :=
  if position = "CENTER" then
    let outer := v * 0.5
    .ok (outer, v - outer)
  else if position = "INSIDE" then .ok (0, v)
  else if position = "OUTSIDE" then .ok (v, 0)
  else if position = "RELATIVE" then
    let outer := v * ratio
    .ok (outer, v - outer)
  else .error ("unknown thickness position: " ++ position)

/-- `parameter_editor.py`, `ThicknessBlenderMixIn.blend_thickness(outer, inner, v)`:
`v = self.blend(outer + inner, v)` followed by the position dispatch. -/
def blend_thickness {α : Type*} [LinearOrderedField α]
    (blend : String) (influence : α) (position : String) (ratio : α)
    (outer inner v : α) : Except String (α × α) := do
  let v' ← blendScalar blend influence (outer + inner) v
  thicknessSplit position ratio v'

/-- `parameter_editor.py`, the pivot validation in `Transform2DShader.__init__`:
unless pivot is one of START, END, CENTER, ABSOLUTE, PARAM, `ValueError` is
raised at construction. -/
def transform2DShaderInit (pivot : String) : Except String String :=
  if pivot = "START" ∨ pivot = "END" ∨ pivot = "CENTER" ∨
      pivot = "ABSOLUTE" ∨ pivot = "PARAM" then .ok pivot
  else .error ("expected pivot in \x7b\x27START\x27, \x27END\x27, \x27CENTER\x27, \x27ABSOLUTE\x27, \x27PARAM\x27\x7d, not" ++ pivot)

/-- `parameter_editor.py`, the target validation in
`ColorDistanceFromObjectShader.__init__`:
`if target is None: raise ValueError(...)`.  The target object is opaque here. -/
def colorDistanceFromObjectShaderInit (target : Option Unit) : Except String Unit :=
  match target with
  | none => .error "ColorDistanceFromObjectShader: target can\x27t be None "
  | some _ => .ok ()

/-- `parameter_editor.py`, `SplitPatternController`: the mutable fields
(`start_len`, `start_idx`, `stop_len`, `stop_idx`) together with the
configuration (`sampling`, `start_pos`, `stop_pos`) fixed by `__init__`.
Exact rational arithmetic models the float arithmetic, which is exact for the
integral patterns and samplings the claims use. -/
structure SplitPatternController where
  sampling : ℚ
  start_pos : List ℚ
  stop_pos : List ℚ
  start_len : ℚ
  start_idx : ℕ
  stop_len : ℚ
  stop_idx : ℕ
  deriving DecidableEq

/-- `SplitPatternController.init(self)`. -/
def SplitPatternController.init (c : SplitPatternController) : SplitPatternController :=
  { c with start_len := 0, start_idx := 0, stop_len := c.sampling, stop_idx := 0 }

/-- `SplitPatternController.__init__(self, pattern, sampling)`:
`start_pos = [prev + current for prev, current in pairwise(pattern)]`,
`stop_pos = [prev for prev, _ in pairwise(pattern)]`, then `init()`. -/
def SplitPatternController.make (pattern : List ℚ) (sampling : ℚ) : SplitPatternController :=
  SplitPatternController.init
    { sampling := sampling
      start_pos := (pattern.zip pattern.tail).map fun pc => pc.1 + pc.2
      stop_pos := (pattern.zip pattern.tail).map fun pc => pc.1
      start_len := 0
      start_idx := 0
      stop_len := 0
      stop_idx := 0 }

/-- `SplitPatternController.start(self)`: adds `sampling` to `start_len`; fires
(and resets, advancing `start_idx` cyclically) when `start_len` is within
`sampling / 2` of `start_pos[start_idx]`. -/
def SplitPatternController.start (c : SplitPatternController) : Bool × SplitPatternController :=
  let sl := c.start_len + c.sampling
  if |sl - c.start_pos.getD c.start_idx 0| < c.sampling / 2 then
    (true, { c with start_len := 0, start_idx := (c.start_idx + 1) % c.start_pos.length })
  else
    (false, { c with start_len := sl })

/-- `SplitPatternController.stop(self)`: re-`init`s when a start run is in
progress, then advances `stop_len` and fires near `stop_pos[stop_idx]`. -/
def SplitPatternController.stop (c : SplitPatternController) : Bool × SplitPatternController :=
  let c := if 0 < c.start_len then c.init else c
  let sl := c.stop_len + c.sampling
  if |sl - c.stop_pos.getD c.stop_idx 0| < c.sampling / 2 then
    (true, { c with stop_len := c.sampling, stop_idx := (c.stop_idx + 1) % c.stop_pos.length })
  else
    (false, { c with stop_len := sl })

/-- The controller state after `n` successive `start()` calls. -/
def SplitPatternController.startIter (c : SplitPatternController) : ℕ → SplitPatternController
  | 0 => c
  | n + 1 => ((c.startIter n).start).2

/-- The controller of the claim: pattern [10, 5], sampling 1.0. -/
def pattern105 : SplitPatternController := SplitPatternController.make [10, 5] 1

/-- The value returned by the n-th `start()` call (n ≥ 1) on `pattern105`. -/
def nthStart (n : ℕ) : Bool := ((pattern105.startIter (n - 1)).start).1

/-- The `pattern105` controller mid-run: `start_len = m`, everything else as
at initialization. -/
def stateQ (m : ℕ) : SplitPatternController :=
  ⟨1, [15], [10], (m : ℚ), 0, 1, 0⟩

/-- `parameter_editor.py`, the per-fedge data consulted by
`MaterialBoundaryUP0D.__call__`: `is_smooth`, `material_index`,
`material_index_left`. -/
structure FEdgeMat where
  is_smooth : Bool
  material_index : ℕ
  material_index_left : ℕ
  deriving DecidableEq

/-- `fe.material_index if fe.is_smooth else fe.material_index_left`. -/
def FEdgeMat.matIdx (fe : FEdgeMat) : ℕ :=
  if fe.is_smooth then fe.material_index else fe.material_index_left

/-- A 0D iterator over the `size` vertices of a chain, at vertex `pos`. -/
structure Interface0DIt where
  size : ℕ
  pos : ℕ
  deriving DecidableEq

/-- `it.decrement()`: raises `RuntimeError` at the beginning of the chain. -/
def Interface0DIt.decrementE (it : Interface0DIt) : Except String Interface0DIt :=
  if it.pos = 0 then .error "RuntimeError: cannot decrement the iterator"
  else .ok ⟨it.size, it.pos - 1⟩

/-- `next(it)`: advances and returns the iterator, raising `StopIteration`
when no further vertex exists. -/
def Interface0DIt.nextE (it : Interface0DIt) : Except String Interface0DIt :=
  if it.size ≤ it.pos + 1 then .error "StopIteration"
  else .ok ⟨it.size, it.pos + 1⟩

/-- `parameter_editor.py`, `MaterialBoundaryUP0D.__call__(self, it)` on a chain
whose fedge between vertices `j` and `j+1` is `fedges[j]` (so the chain has
`fedges.length + 1` vertices): decrement to `prev`, step to `svert`, step to
`succ`; any `RuntimeError`/`StopIteration` returns `False`; otherwise compare
the material indices of `svert.get_fedge(prev)` and `svert.get_fedge(succ)`. -/
def MaterialBoundaryUP0D (fedges : List FEdgeMat) (it : Interface0DIt) : Bool :=
  match it.decrementE with
  | .error _ => false
  | .ok it1 =>
    match it1.nextE with
    | .error _ => false
    | .ok it2 =>
      match it2.nextE with
      | .error _ => false
      | .ok _ =>
        let d : FEdgeMat := ⟨false, 0, 0⟩
        let fe1 := fedges.getD (it2.pos - 1) d
        let fe2 := fedges.getD it2.pos d
        fe1.matIdx != fe2.matIdx

/-- `MaterialBoundaryUP0D` called with the iterator at vertex `i` of the chain
described by `fedges`. -/
def materialBoundaryAt (fedges : List FEdgeMat) (i : ℕ) : Bool :=
  MaterialBoundaryUP0D fedges ⟨fedges.length + 1, i⟩

/-- A 5-vertex chain whose material index changes once, at its midpoint
(vertex 2): fedge material indices 0, 0, 1, 1. -/
def midpointChain : List FEdgeMat :=
  [⟨false, 0, 0⟩, ⟨false, 0, 0⟩, ⟨false, 0, 1⟩, ⟨false, 0, 1⟩]

/-- `mathutils.Vector.cross` for 2D vectors: the scalar `a.x·b.y - a.y·b.x`. -/
def cross2 (a b : ℝ × ℝ) : ℝ := a.1 * b.2 - a.2 * b.1

/-- `mathutils.Vector.length` for 2D vectors. -/
noncomputable def norm2 (v : ℝ × ℝ) : ℝ := Real.sqrt (v.1 ^ 2 + v.2 ^ 2)

/-- `mathutils.Vector.length` for 3D vectors. -/
noncomputable def norm3 (v : ℝ × ℝ × ℝ) : ℝ :=
  Real.sqrt (v.1 ^ 2 + v.2.1 ^ 2 + v.2.2 ^ 2)

/-- `mathutils.Vector.dot` for 3D vectors. -/
def dot3 (a b : ℝ × ℝ × ℝ) : ℝ := a.1 * b.1 + a.2.1 * b.2.1 + a.2.2 * b.2.2

/-- `mathutils.Vector.normalized` for 3D vectors: `v / ‖v‖`, and the zero
vector for a zero-length input (mathutils does not raise there). -/
noncomputable def normalized3 (v : ℝ × ℝ × ℝ) : ℝ × ℝ × ℝ :=
  if norm3 v = 0 then (0, 0, 0)
  else (v.1 / norm3 v, v.2.1 / norm3 v, v.2.2 / norm3 v)

/-- `freestyle.types.Nature.SILHOUETTE`. -/
def Nature.SILHOUETTE : ℕ := 1

/-- `freestyle.types.Nature.BORDER`. -/
def Nature.BORDER : ℕ := 2

/-- `parameter_editor.py`, the fedge data consulted by
`ThicknessModifierMixIn.set_thickness`. -/
structure FEdgeTh where
  nature : ℕ
  is_smooth : Bool
  normal_left : ℝ × ℝ × ℝ

/-- `parameter_editor.py`, `ThicknessModifierMixIn.set_thickness(sv, outer, inner)`:
the (outer, inner) pair actually stored into `sv.attribute.thickness`, as a
function of the camera projection flag, `sv.point_3d` and the underlying
fedge.  BORDER edges test the camera-facing direction
(`point = -sv.point_3d.normalized(); dir = point.dot(fe.normal_left)` for a
perspective camera, `dir = fe.normal_left.z` otherwise) and swap when
`dir < 0`; SILHOUETTE edges swap when the fedge is smooth; all other natures
collapse both sides to the average. -/
noncomputable def set_thickness (persp_camera : Bool) (point_3d : ℝ × ℝ × ℝ)
    (fe : FEdgeTh) (outer inner : ℝ) : ℝ × ℝ :=
  if fe.nature &&& Nature.BORDER ≠ 0 then
    let dir : ℝ :=
      if persp_camera then dot3 (-(normalized3 point_3d)) fe.normal_left
      else fe.normal_left.2.2
    if dir < 0 then (inner, outer) else (outer, inner)
  else if fe.nature &&& Nature.SILHOUETTE ≠ 0 then
    if fe.is_smooth then (inner, outer) else (outer, inner)
  else ((outer + inner) / 2, (outer + inner) / 2)

/-- The camera-facing test in the words of the claim: for a perspective camera
the dot of the normalized inverse view vector with the stored left normal,
for an orthographic camera the z component of the left normal. -/
noncomputable def camFacingTest (persp_camera : Bool) (point_3d nL : ℝ × ℝ × ℝ) : ℝ :=
  if persp_camera then dot3 (normalized3 (-point_3d)) nL else nL.2.2

/-- `freestyle/utils.py`, `stroke_curvature` at an interior vertex, as a
function of the `prev`/`current`/`next` 2D points resolved by the iterator:
`K = bound(0, 4·area/(a·b·c), 1)` with `area = 0.5·ab.cross(ac)`, and `K = 0`
when the division raises `ZeroDivisionError` (a·b·c = 0). -/
noncomputable def stroke_curvature (prev current next : ℝ × ℝ) : ℝ :=
  let ab := current - prev
  let bc := next - current
  let ac := prev - next
  let a := norm2 ab
  let b := norm2 bc
  let c := norm2 ac
  if a * b * c = 0 then 0
  else
    let area := 0.5 * cross2 ab ac
    bound 0 (4 * area / (a * b * c)) 1

/-- Three 2D points on one straight line (vanishing turning determinant). -/
def collinear2 (p q r : ℝ × ℝ) : Prop := cross2 (q - p) (r - p) = 0

/-- `freestyle/utils.py`, the loop body of `iter_distance_from_camera` (and
`iter_distance_from_object`) applied to one vertex distance, with
`normfac = range_max - range_min`. -/
def distance_t {α : Type*} [LinearOrderedField α] (range_min range_max distance : α) : α :=
  if range_min < distance ∧ distance < range_max then
    (distance - range_min) / (range_max - range_min)
  else if range_min > distance then 0 else 1

/-- `freestyle/utils.py`, `iter_distance_from_camera(stroke, range_min, range_max)`:
for each vertex the distance is `svert.point_3d.length` (the length in camera
coordinates). -/
noncomputable def iter_distance_from_camera (stroke : List (ℝ × ℝ × ℝ))
    (range_min range_max : ℝ) : List ℝ :=
  stroke.map fun svert => distance_t range_min range_max (norm3 svert)

/-- `parameter_editor.py`, the per-fedge data consulted by the face-mark
predicates. -/
structure FEdgeFM where
  is_smooth : Bool
  nature : ℕ
  face_mark : Bool
  face_mark_left : Bool
  face_mark_right : Bool
  deriving DecidableEq

/-- The loop body of `FaceMarkOneUP1D.__call__`: smooth fedges consult the
single face mark, BORDER fedges the left mark, all others either mark. -/
def faceMarkOneRule (fe : FEdgeFM) : Bool :=
  if fe.is_smooth then fe.face_mark
  else if fe.nature &&& Nature.BORDER ≠ 0 then fe.face_mark_left
  else fe.face_mark_right || fe.face_mark_left

/-- The loop body of `FaceMarkBothUP1D.__call__`: as `faceMarkOneRule` but
requiring both the left and right marks for non-smooth, non-BORDER fedges. -/
def faceMarkBothRule (fe : FEdgeFM) : Bool :=
  if fe.is_smooth then fe.face_mark
  else if fe.nature &&& Nature.BORDER ≠ 0 then fe.face_mark_left
  else fe.face_mark_right && fe.face_mark_left

/-- `parameter_editor.py`, `FaceMarkOneUP1D.__call__`: walks the fedge chain of the ViewEdge (modelled as the list of fedges from `inter.first_fedge` along
`next_fedge`) and returns True as soon as the rule fires. -/
def FaceMarkOneUP1D (fedges : List FEdgeFM) : Bool := fedges.any faceMarkOneRule

/-- `parameter_editor.py`, `FaceMarkBothUP1D.__call__` as written in the
source: its loop-entry statement `while fe is not None` reads the local
variable `fe` before any assignment (the initialization
`fe = inter.first_fedge` present in `FaceMarkOneUP1D` is missing), so every
call raises `UnboundLocalError`, whatever the ViewEdge. -/
def FaceMarkBothUP1D (_fedges : List FEdgeFM) : Except String Bool :=
  .error "UnboundLocalError: local variable fe referenced before assignment"

/-- Modelled from the spec: the intended `FaceMarkBothUP1D`, beginning the
traversal at `inter.first_fedge` per the explicit initialization of the
one-sided variant (the source of `__call__` never initializes `fe`). -/
def faceMarkBothIntended (fedges : List FEdgeFM) : Bool := fedges.any faceMarkBothRule

end Freestyle

namespace Freestyle

/-- C1: `ScalarBlendModifier.blend` computes, over the reals: MIX = (1-f)v1+f·v2,
ADD = v1+f·v2, MULTIPLY = v1·(1-f+f·v2), SUBTRACT = v1-f·v2, DIVIDE =
(1-f)v1+f·v1/v2 for v2 ≠ 0 and v1 unchanged for v2 = 0 (no exception),
DIFFERENCE = (1-f)v1+f·|v1-v2|, MININUM = min(f·v2,v1), MAXIMUM = max(f·v2,v1);
MIX at influence 0 returns v1 and at influence 1 returns v2. -/
theorem blend_modes_spec (f v1 v2 : ℝ) :
    blendScalar "MIX" f v1 v2 = .ok ((1 - f) * v1 + f * v2) ∧
    blendScalar "ADD" f v1 v2 = .ok (v1 + f * v2) ∧
    blendScalar "MULTIPLY" f v1 v2 = .ok (v1 * (1 - f + f * v2)) ∧
    blendScalar "SUBTRACT" f v1 v2 = .ok (v1 - f * v2) ∧
    (v2 ≠ 0 → blendScalar "DIVIDE" f v1 v2 = .ok ((1 - f) * v1 + f * v1 / v2)) ∧
    blendScalar "DIVIDE" f v1 0 = .ok v1 ∧
    blendScalar "DIFFERENCE" f v1 v2 = .ok ((1 - f) * v1 + f * |v1 - v2|) ∧
    blendScalar "MININUM" f v1 v2 = .ok (min (f * v2) v1) ∧
    blendScalar "MAXIMUM" f v1 v2 = .ok (max (f * v2) v1) ∧
    blendScalar "MIX" 0 v1 v2 = .ok v1 ∧
    blendScalar "MIX" 1 v1 v2 = .ok v2 := by
  refine ⟨?_, ?_, ?_, ?_, ?_, ?_, ?_, ?_, ?_, ?_, ?_⟩
  · simp [blendScalar]
  · simp [blendScalar]
  · simp [blendScalar]
  · simp [blendScalar]
  · intro hv2
    simp [blendScalar, hv2]
  · simp [blendScalar]
  · simp [blendScalar]
  · simp [blendScalar]
  · simp [blendScalar]
  · simp [blendScalar]
  · simp [blendScalar]

/-- Witness for C1: the DIVIDE branch at f = 1/2, v1 = 4, v2 = 2. -/
theorem blend_modes_spec_witness :
    blendScalar "DIVIDE" (1 / 2 : ℝ) 4 2 = .ok ((1 - 1 / 2) * 4 + (1 / 2) * 4 / 2) :=
  (blend_modes_spec (1 / 2) 4 2).2.2.2.2.1 (by norm_num)

/-- C2: the position split in `blend_thickness`, at the blended value `v` and
ratio `r`, yields (v,0) for OUTSIDE, (0,v) for INSIDE, (v/2,v/2) for CENTER and
(v·r, v·(1-r)) for RELATIVE; and whenever `blend_thickness` succeeds, the
resulting outer+inner equals the blended target value exactly. -/
theorem blend_thickness_split_spec (r v : ℝ) :
    thicknessSplit "OUTSIDE" r v = .ok (v, 0) ∧
    thicknessSplit "INSIDE" r v = .ok (0, v) ∧
    thicknessSplit "CENTER" r v = .ok (v / 2, v / 2) ∧
    thicknessSplit "RELATIVE" r v = .ok (v * r, v * (1 - r)) ∧
    (∀ (blend position : String) (f outer inner vraw o i : ℝ),
      blend_thickness blend f position r outer inner vraw = .ok (o, i) →
      ∃ v', blendScalar blend f (outer + inner) vraw = .ok v' ∧ o + i = v') := by
  refine ⟨?_, ?_, ?_, ?_, ?_⟩
  · simp [thicknessSplit]
  · simp [thicknessSplit]
  · simp [thicknessSplit]
    constructor <;> ring
  · simp [thicknessSplit]
    ring
  · intro blend position f outer inner vraw o i h
    unfold blend_thickness at h
    cases hb : blendScalar blend f (outer + inner) vraw with
    | error e =>
      rw [hb] at h
      have h' : (Except.error e : Except String (ℝ × ℝ)) = .ok (o, i) := h
      simp at h'
    | ok v' =>
      rw [hb] at h
      refine ⟨v', rfl, ?_⟩
      have h' : thicknessSplit position r v' = .ok (o, i) := h
      unfold thicknessSplit at h'
      split_ifs at h' <;> simp_all <;> linarith

/-- Witness for C2: a successful MIX/RELATIVE call has outer+inner equal to the
blended value. -/
theorem blend_thickness_split_spec_witness :
    ∃ v', blendScalar "MIX" (1 / 2 : ℝ) (1 + 2) 5 = .ok v' ∧ (2 : ℝ) + 2 = v' := by
  have hb : blendScalar "MIX" (1 / 2 : ℝ) (1 + 2) 5 = .ok 4 := by
    simp [blendScalar]
    norm_num
  have ht : thicknessSplit "RELATIVE" (1 / 2 : ℝ) 4 = .ok (2, 2) := by
    simp [thicknessSplit]
    norm_num
  have h : blend_thickness "MIX" (1 / 2) "RELATIVE" (1 / 2 : ℝ) 1 2 5 = .ok (2, 2) := by
    unfold blend_thickness
    rw [hb]
    exact ht
  exact (blend_thickness_split_spec (1 / 2) 0).2.2.2.2 "MIX" "RELATIVE" (1 / 2) 1 2 5 2 2 h

/-- C10: `bound(lower, x, higher)` equals `min(max(x, lower), higher)` whenever
`lower ≤ higher`; without that precondition the two differ (at lower = 2,
x = 0, higher = 1). -/
theorem bound_min_max_spec :
    (∀ lower x higher : ℝ, lower ≤ higher →
      bound lower x higher = min (max x lower) higher) ∧
    (∃ lower x higher : ℝ, higher < lower ∧
      bound lower x higher ≠ min (max x lower) higher) := by
  constructor
  · intro lower x higher hle
    unfold bound
    split_ifs with h1 h2
    · rw [max_eq_right h1, min_eq_left hle]
    · rw [max_eq_left (le_of_not_le h1), min_eq_right h2]
    · rw [max_eq_left (le_of_not_le h1), min_eq_left (le_of_not_le h2)]
  · refine ⟨2, 0, 1, by norm_num, ?_⟩
    unfold bound
    norm_num

/-- Witness for C10: `bound 0 5 1 = min (max 5 0) 1` via the main theorem. -/
theorem bound_min_max_spec_witness :
    bound (0 : ℝ) 5 1 = min (max 5 0) 1 :=
  bound_min_max_spec.1 0 5 1 (by norm_num)

/-- Counterexample to C8: an unknown blend mode is *not* rejected at modifier
construction time — `ScalarBlendModifier.__init__` succeeds with the bogus
mode, and the `ValueError` only arises when `blend` is later invoked during
shading. -/
theorem config_error_construction_cex :
    scalarBlendModifierInit "BOGUS" (1 : ℝ) = .ok ("BOGUS", 1) ∧
    blendScalar "BOGUS" (1 : ℝ) 0 0 = .error "unknown curve blend type: BOGUS" := by
  constructor
  · rfl
  · simp [blendScalar]

/-- C8 (amended): an unknown pivot mode and a `None` target reference raise
`ValueError` at modifier construction; an unknown blend mode and an unknown
thickness position are accepted at construction and raise `ValueError` only
when `blend` / `blend_thickness` is evaluated during shading. -/
theorem config_error_timing_spec :
    (∀ pivot : String,
      pivot ≠ "START" → pivot ≠ "END" → pivot ≠ "CENTER" →
      pivot ≠ "ABSOLUTE" → pivot ≠ "PARAM" →
      transform2DShaderInit pivot =
        .error ("expected pivot in \x7b\x27START\x27, \x27END\x27, \x27CENTER\x27, \x27ABSOLUTE\x27, \x27PARAM\x27\x7d, not" ++ pivot)) ∧
    colorDistanceFromObjectShaderInit none =
      .error "ColorDistanceFromObjectShader: target can\x27t be None " ∧
    (∀ (b : String) (i : ℝ), scalarBlendModifierInit b i = .ok (b, i)) ∧
    (∀ b : String,
      b ≠ "MIX" → b ≠ "ADD" → b ≠ "MULTIPLY" → b ≠ "SUBTRACT" → b ≠ "DIVIDE" →
      b ≠ "DIFFERENCE" → b ≠ "MININUM" → b ≠ "MAXIMUM" →
      ∀ f v1 v2 : ℝ,
        blendScalar b f v1 v2 = .error ("unknown curve blend type: " ++ b)) ∧
    (∀ p : String,
      p ≠ "CENTER" → p ≠ "INSIDE" → p ≠ "OUTSIDE" → p ≠ "RELATIVE" →
      ∀ r v : ℝ,
        thicknessSplit p r v = .error ("unknown thickness position: " ++ p)) := by
  refine ⟨?_, rfl, fun b i => rfl, ?_, ?_⟩
  · intro pivot h1 h2 h3 h4 h5
    simp [transform2DShaderInit, h1, h2, h3, h4, h5]
  · intro b h1 h2 h3 h4 h5 h6 h7 h8 f v1 v2
    simp [blendScalar, h1, h2, h3, h4, h5, h6, h7, h8]
  · intro p h1 h2 h3 h4 r v
    simp [thicknessSplit, h1, h2, h3, h4]

/-- Witness for C8 (amended): the bogus pivot mode "NOWHERE" is rejected at
construction. -/
theorem config_error_timing_spec_witness :
    transform2DShaderInit "NOWHERE" =
      .error ("expected pivot in \x7b\x27START\x27, \x27END\x27, \x27CENTER\x27, \x27ABSOLUTE\x27, \x27PARAM\x27\x7d, not" ++ "NOWHERE") :=
  config_error_timing_spec.1 "NOWHERE" (by decide) (by decide) (by decide)
    (by decide) (by decide)

/-- The firing test of `start()` on `stateQ k`: within half a sampling step of
the pattern boundary 15 exactly when `k = 14`. -/
theorem startQ_cond (k : ℕ) (hk : k < 15) :
    (|((k : ℚ) + 1) - 15| < 1 / 2) ↔ k = 14 := by
  constructor
  · intro h
    by_contra h14
    have hk13 : k ≤ 13 := by omega
    have hle : (k : ℚ) ≤ 13 := by exact_mod_cast hk13
    rw [abs_sub_comm, abs_of_nonneg (by linarith)] at h
    linarith
  · intro h
    subst h
    norm_num

/-- One `start()` call on `pattern105` mid-run: `start_len = k` steps to
`start_len = k + 1`, resetting to 0 exactly when `k = 14`. -/
theorem startQ_step (k : ℕ) (hk : k < 15) :
    ((stateQ k).start).2 = stateQ (if k = 14 then 0 else k + 1) := by
  have hgoal : ((stateQ k).start) =
      if |((k : ℚ) + 1) - 15| < 1 / 2 then
        (true, ⟨1, [15], [10], 0, (0 + 1) % 1, 1, 0⟩)
      else (false, ⟨1, [15], [10], (k : ℚ) + 1, 0, 1, 0⟩) := by
    simp [SplitPatternController.start, stateQ]
  rcases eq_or_ne k 14 with h14 | h14
  · subst h14
    rw [hgoal, if_pos (by norm_num)]
    simp [stateQ]
  · rw [hgoal, if_neg (fun h => h14 ((startQ_cond k hk).mp h))]
    simp [stateQ, h14]

/-- One `start()` call on `pattern105` mid-run fires exactly from
`start_len = 14`. -/
theorem startQ_fires (k : ℕ) (hk : k < 15) :
    ((stateQ k).start).1 = decide (k = 14) := by
  have hgoal : ((stateQ k).start) =
      if |((k : ℚ) + 1) - 15| < 1 / 2 then
        (true, ⟨1, [15], [10], 0, (0 + 1) % 1, 1, 0⟩)
      else (false, ⟨1, [15], [10], (k : ℚ) + 1, 0, 1, 0⟩) := by
    simp [SplitPatternController.start, stateQ]
  rcases eq_or_ne k 14 with h14 | h14
  · subst h14
    rw [hgoal, if_pos (by norm_num)]
    simp
  · rw [hgoal, if_neg (fun h => h14 ((startQ_cond k hk).mp h))]
    simp [h14]

/-- The fresh controller `pattern105` is `stateQ 0`. -/
theorem pattern105_eq : pattern105 = stateQ 0 := by
  rw [pattern105, SplitPatternController.make, SplitPatternController.init, stateQ]
  norm_num

/-- After `n` calls to `start()`, the `pattern105` controller holds
`start_len = n % 15` and is otherwise at its initial state. -/
theorem startIter_eq (n : ℕ) : pattern105.startIter n = stateQ (n % 15) := by
  induction n with
  | zero =>
    rw [SplitPatternController.startIter, pattern105_eq]
  | succ n ih =>
    have hk : n % 15 < 15 := Nat.mod_lt _ (by norm_num)
    rw [SplitPatternController.startIter, ih, startQ_step _ hk]
    congr 1
    rcases eq_or_ne (n % 15) 14 with h | h <;> simp [h] <;> omega

/-- C4: on `SplitPatternController([10, 5], 1.0)` the n-th `start()` call
(n ≥ 1) returns True exactly when n is a multiple of 15 (cumulative positions
15, 30, ...), deterministically, depending on n only through n mod 15. -/
theorem split_pattern_start_spec (n : ℕ) (h : 1 ≤ n) :
    nthStart n = true ↔ n % 15 = 0 := by
  unfold nthStart
  rw [startIter_eq, startQ_fires _ (Nat.mod_lt _ (by norm_num))]
  simp only [decide_eq_true_eq]
  omega

/-- Witness for C4: the 15th call returns True. -/
theorem split_pattern_start_spec_witness : nthStart 15 = true :=
  (split_pattern_start_spec 15 (by norm_num)).mpr (by norm_num)

/-- C6: `MaterialBoundaryUP0D` fires exactly at interior vertices where the
material index of the incoming fedge differs from that of the outgoing one; at either
end of the chain it returns False (the `RuntimeError`/`StopIteration` is
caught); on a 5-vertex chain whose material index changes once at its midpoint
it fires exactly at that vertex and never at the endpoints. -/
theorem material_boundary_spec :
    (∀ (fedges : List FEdgeMat) (i : ℕ),
      materialBoundaryAt fedges i = true ↔
        0 < i ∧ i < fedges.length ∧
          (fedges.getD (i - 1) ⟨false, 0, 0⟩).matIdx ≠
            (fedges.getD i ⟨false, 0, 0⟩).matIdx) ∧
    (∀ (fedges : List FEdgeMat) (i : ℕ),
      i = 0 ∨ fedges.length ≤ i → materialBoundaryAt fedges i = false) ∧
    (∀ i, i < 5 → materialBoundaryAt midpointChain i = decide (i = 2)) := by
  have key : ∀ (fedges : List FEdgeMat) (i : ℕ),
      materialBoundaryAt fedges i = true ↔
        0 < i ∧ i < fedges.length ∧
          (fedges.getD (i - 1) ⟨false, 0, 0⟩).matIdx ≠
            (fedges.getD i ⟨false, 0, 0⟩).matIdx := by
    intro fedges i
    unfold materialBoundaryAt MaterialBoundaryUP0D Interface0DIt.decrementE
      Interface0DIt.nextE
    rcases Nat.eq_zero_or_pos i with h0 | h0
    · subst h0
      simp
    · have h0' : ¬ i = 0 := Nat.pos_iff_ne_zero.mp h0
      simp only [h0', if_false]
      rcases Nat.lt_or_ge i fedges.length with hlt | hge
      · have c1 : ¬ (fedges.length + 1 ≤ i - 1 + 1) := by omega
        have c2 : ¬ (fedges.length + 1 ≤ i - 1 + 1 + 1) := by omega
        simp only [c1, if_false, c2]
        have hpos : i - 1 + 1 = i := Nat.succ_pred_eq_of_pos h0
        simp [hpos, bne_iff_ne]
        omega
      · rcases Nat.lt_or_ge (i - 1 + 1) (fedges.length + 1) with hlt2 | hge2
        · have c1 : ¬ (fedges.length + 1 ≤ i - 1 + 1) := by omega
          have c2 : fedges.length + 1 ≤ i - 1 + 1 + 1 := by omega
          simp only [c1, if_false, c2, if_true]
          simp
          omega
        · have c1 : fedges.length + 1 ≤ i - 1 + 1 := by omega
          simp only [c1, if_true]
          simp
          omega
  refine ⟨key, ?_, ?_⟩
  · intro fedges i h
    cases hb : materialBoundaryAt fedges i with
    | false => rfl
    | true =>
      exfalso
      rcases (key fedges i).mp hb with ⟨h1, h2, _⟩
      rcases h with h | h <;> omega
  · intro i hi
    interval_cases i <;> decide

/-- Witness for C6: the single-vertex degenerate chain at position 0 produces
no split. -/
theorem material_boundary_spec_witness : materialBoundaryAt [] 0 = false :=
  material_boundary_spec.2.1 [] 0 (Or.inl rfl)

/-- A negated 3D vector has the same length. -/
theorem norm3_neg (v : ℝ × ℝ × ℝ) : norm3 (-v) = norm3 v := by
  unfold norm3
  simp [Prod.fst_neg, Prod.snd_neg, neg_sq]

/-- Normalizing commutes with negation. -/
theorem normalized3_neg (v : ℝ × ℝ × ℝ) : normalized3 (-v) = -(normalized3 v) := by
  unfold normalized3
  rw [norm3_neg]
  split_ifs with h
  · simp [Prod.ext_iff]
  · simp [Prod.fst_neg, Prod.snd_neg, Prod.ext_iff, neg_div]

/-- `dot3` is antitone in negation of its first argument. -/
theorem dot3_neg_left (a b : ℝ × ℝ × ℝ) : dot3 (-a) b = -(dot3 a b) := by
  unfold dot3
  simp [Prod.fst_neg, Prod.snd_neg]
  ring

/-- The camera test of the claim coincides with the direction computed by the
code (`-sv.point_3d.normalized()` dotted with the left normal). -/
theorem camFacingTest_eq (persp : Bool) (p nL : ℝ × ℝ × ℝ) :
    camFacingTest persp p nL =
      (if persp then dot3 (-(normalized3 p)) nL else nL.2.2) := by
  unfold camFacingTest
  cases persp
  · rfl
  · simp only [if_true]
    rw [normalized3_neg]

/-- C3: `set_thickness` swaps the (outer, inner) pair of a BORDER-nature fedge
exactly when the camera-facing test (perspective: dot of the normalized
inverse view vector with the stored left normal; orthographic: the z component
of the left normal) is negative; a non-BORDER SILHOUETTE fedge swaps exactly
when it is smooth; all other natures set both sides to the average. -/
theorem set_thickness_side_spec (persp : Bool) (p : ℝ × ℝ × ℝ) (fe : FEdgeTh)
    (outer inner : ℝ) :
    (fe.nature &&& Nature.BORDER ≠ 0 →
      set_thickness persp p fe outer inner =
        if camFacingTest persp p fe.normal_left < 0 then (inner, outer)
        else (outer, inner)) ∧
    (fe.nature &&& Nature.BORDER = 0 → fe.nature &&& Nature.SILHOUETTE ≠ 0 →
      set_thickness persp p fe outer inner =
        if fe.is_smooth then (inner, outer) else (outer, inner)) ∧
    (fe.nature &&& Nature.BORDER = 0 → fe.nature &&& Nature.SILHOUETTE = 0 →
      set_thickness persp p fe outer inner =
        ((outer + inner) / 2, (outer + inner) / 2)) := by
  refine ⟨?_, ?_, ?_⟩
  · intro hB
    unfold set_thickness
    rw [if_pos hB, camFacingTest_eq]
  · intro hB hS
    unfold set_thickness
    rw [if_neg (fun hc => hc hB), if_pos hS]
  · intro hB hS
    unfold set_thickness
    rw [if_neg (fun hc => hc hB), if_neg (fun hc => hc hS)]

/-- Witness for C3: an orthographic camera, a BORDER fedge whose left normal
has negative z, outer 1 and inner 2: the pair is swapped. -/
theorem set_thickness_side_spec_witness :
    set_thickness false (0, 0, 0) ⟨2, false, (0, 0, -1)⟩ 1 2 = (2, 1) := by
  have h := (set_thickness_side_spec false (0, 0, 0) ⟨2, false, (0, 0, -1)⟩ 1 2).1
    (by decide)
  rw [h, camFacingTest]
  norm_num

/-- `bound 0 x 1` always lies in [0, 1]. -/
theorem bound_zero_one (x : ℝ) : 0 ≤ bound (0 : ℝ) x 1 ∧ bound (0 : ℝ) x 1 ≤ 1 := by
  unfold bound
  split_ifs <;> constructor <;> linarith

/-- C5: at every interior stroke-vertex position, `stroke_curvature` returns a
value in [0, 1]; it returns exactly 0 for colinear prev/current/next points;
and a vanishing denominator (the `ZeroDivisionError` catch) yields 0 rather
than an exception. -/
theorem stroke_curvature_spec (prev current next : ℝ × ℝ) :
    (0 ≤ stroke_curvature prev current next ∧
      stroke_curvature prev current next ≤ 1) ∧
    (collinear2 prev current next → stroke_curvature prev current next = 0) ∧
    (norm2 (current - prev) * norm2 (next - current) * norm2 (prev - next) = 0 →
      stroke_curvature prev current next = 0) := by
  refine ⟨?_, ?_, ?_⟩
  · simp only [stroke_curvature]
    split_ifs with h
    · norm_num
    · exact bound_zero_one _
  · intro hcol
    simp only [stroke_curvature]
    split_ifs with h
    · rfl
    · have h0 : cross2 (current - prev) (next - prev) = 0 := hcol
      have hc : cross2 (current - prev) (prev - next) = 0 := by
        simp only [cross2, Prod.fst_sub, Prod.snd_sub] at h0 ⊢
        linear_combination -h0
      rw [hc]
      norm_num [bound]
  · intro habc
    simp only [stroke_curvature]
    rw [if_pos habc]

/-- Witness for C5: three colinear points give curvature 0. -/
theorem stroke_curvature_spec_witness :
    stroke_curvature (0, 0) (1, 0) (2, 0) = 0 :=
  (stroke_curvature_spec (0, 0) (1, 0) (2, 0)).2.1
    (by norm_num [collinear2, cross2, Prod.fst_sub, Prod.snd_sub])

/-- The per-vertex body of `iter_distance_from_camera`: the three clipping
cases and the [0, 1] bound, given `range_min < range_max`. -/
theorem distance_t_cases (rmin rmax d : ℝ) (h : rmin < rmax) :
    (d < rmin → distance_t rmin rmax d = 0) ∧
    (rmax < d → distance_t rmin rmax d = 1) ∧
    (rmin < d → d < rmax → distance_t rmin rmax d = (d - rmin) / (rmax - rmin)) ∧
    (0 ≤ distance_t rmin rmax d ∧ distance_t rmin rmax d ≤ 1) := by
  unfold distance_t
  split_ifs with h1 h2
  · obtain ⟨ha, hb⟩ := h1
    refine ⟨fun hd => absurd ha (by linarith), fun hd => absurd hb (by linarith),
      fun _ _ => rfl, ?_, ?_⟩
    · apply div_nonneg <;> linarith
    · rw [div_le_one (by linarith)]
      linarith
  · exact ⟨fun _ => rfl, fun hd => absurd h2 (by linarith),
      fun hd _ => absurd h2 (by linarith), by norm_num⟩
  · push_neg at h2
    refine ⟨fun hd => absurd h2 (by linarith), fun _ => rfl,
      fun hd1 hd2 => absurd ⟨hd1, hd2⟩ h1, by norm_num⟩

/-- C7: with `range_min < range_max`, `iter_distance_from_camera` yields, for
each stroke vertex of camera-space distance d, 0 when d is below `range_min`,
1 when d is above `range_max`, the linear ratio when d is strictly between,
and every yielded value lies in [0, 1]. -/
theorem iter_distance_from_camera_spec (stroke : List (ℝ × ℝ × ℝ))
    (rmin rmax : ℝ) (h : rmin < rmax) :
    (∀ p ∈ stroke,
      (norm3 p < rmin → distance_t rmin rmax (norm3 p) = 0) ∧
      (rmax < norm3 p → distance_t rmin rmax (norm3 p) = 1) ∧
      (rmin < norm3 p → norm3 p < rmax →
        distance_t rmin rmax (norm3 p) = (norm3 p - rmin) / (rmax - rmin))) ∧
    (∀ t ∈ iter_distance_from_camera stroke rmin rmax, 0 ≤ t ∧ t ≤ 1) := by
  constructor
  · intro p _
    obtain ⟨a, b, c, _⟩ := distance_t_cases rmin rmax (norm3 p) h
    exact ⟨a, b, c⟩
  · intro t ht
    rw [iter_distance_from_camera, List.mem_map] at ht
    obtain ⟨p, _, rfl⟩ := ht
    exact (distance_t_cases rmin rmax (norm3 p) h).2.2.2

/-- Witness for C7: a vertex at the camera origin with range [1, 3] yields 0. -/
theorem iter_distance_from_camera_spec_witness :
    distance_t (1 : ℝ) 3 (norm3 (0, 0, 0)) = 0 := by
  have h := ((iter_distance_from_camera_spec [(0, 0, 0)] 1 3 (by norm_num)).1
    (0, 0, 0) (by simp)).1
  apply h
  rw [show norm3 ((0 : ℝ), (0 : ℝ), (0 : ℝ)) = 0 from by norm_num [norm3]]
  norm_num

/-- C9: `FaceMarkBothUP1D.__call__` never returns a boolean: because its local
variable `fe` is read in the loop condition before any assignment, every call
raises `UnboundLocalError`, on every ViewEdge — contrary to the claim that it
evaluates the both-sides rule and never raises. -/
theorem face_mark_both_raises (fedges : List FEdgeFM) :
    FaceMarkBothUP1D fedges =
      .error "UnboundLocalError: local variable fe referenced before assignment" :=
  rfl

/-- The intended both-sides predicate (spec-modelled) fires exactly when some
fedge of the chain is marked per the both-sides rule; shown next to the
code-bug theorem for reference. -/
theorem face_mark_both_intended_spec (fedges : List FEdgeFM) :
    faceMarkBothIntended fedges = true ↔
      ∃ fe ∈ fedges, faceMarkBothRule fe = true := by
  unfold faceMarkBothIntended
  rw [List.any_eq_true]

end Freestyle
